import Mathlib

/-!
Verification development for the sarjan workspace graph store
(`src/sarjan/base.py`).

Modelling conventions, fixed throughout this file:

* Python JSON-serializable values are modelled by `JVal`; Python `dict`s
  are insertion-ordered association lists (`List (key × value)`) with the
  update-in-place-or-append semantics of `dict.__setitem__`.
* `Connection.separate_path` wraps the document component of an address in
  `pathlib.Path`.  A `PurePosixPath` compares equal to another path with the
  same normalized string form and never compares equal to a plain `str`;
  graph node keys are therefore modelled by `NodeKey`, which separates
  `str`-keyed nodes from `Path`-keyed nodes, and `pyNorm` implements the
  `PurePosixPath` string normalization (collapse repeated slashes and
  single-dot components, drop trailing slashes, empty path becomes a dot).
* The filesystem adapter (pyfilesystem2) is an external collaborator: it is
  modelled as a flat insertion-ordered map from file path strings to file
  contents.  Directories are abstracted away (`makedirs` and
  `recurse_remove_empty` act only on directories, so they are no-ops here),
  and a `Path` argument handed to the adapter is read by its string form.
  The persistence file `workspace.json` written by `save` is modelled
  structurally: its decoded JSON content lives in the `saveData` field of
  the workspace state.
* Python exceptions are modelled by `Except PyError`; an operation that
  raises before mutating anything is a function returning `.error`.
-/

namespace Sarjan

/-- JSON-like values: the universe of metadata values and of the persisted
workspace representation. -/
inductive JVal where
  | jnull
  | jbool (b : Bool)
  | jnum (n : Int)
  | jstr (s : String)
  | jarr (xs : List JVal)
  | jobj (kvs : List (String × JVal))
deriving Repr

/-- Python errors raised by the code paths modelled here. -/
inductive PyError where
  | valueError (msg : String)
  | typeError (msg : String)
  | attributeError (msg : String)
  | resourceNotFound (msg : String)
  | keyError (msg : String)
deriving DecidableEq, Repr

/-- A graph node key: either a plain Python `str` or a `PurePosixPath`
(whose normalized string form is stored).  A `str` and a `Path` are never
equal, mirroring Python `==` and hashing. -/
inductive NodeKey where
  | str (s : String)
  | path (s : String)
deriving DecidableEq, Repr

/-- The string form of a node key (`str(key)` in Python). -/
def NodeKey.toStr : NodeKey → String
  | .str s => s
  | .path s => s

section AList

variable {κ α : Type} [DecidableEq κ]

/-- Association-list lookup: `dict.get` / `in` on a Python dict. -/
def aget : List (κ × α) → κ → Option α
  | [], _ => none
  | (k, v) :: t, x => if k = x then some v else aget t x

/-- Association-list membership test. -/
def ahas (l : List (κ × α)) (k : κ) : Bool :=
  (aget l k).isSome

/-- Association-list update: `dict.__setitem__`, which overwrites in place
when the key is present and appends otherwise. -/
def aset : List (κ × α) → κ → α → List (κ × α)
  | [], k, v => [(k, v)]
  | (k', v') :: t, k, v => if k' = k then (k, v) :: t else (k', v') :: aset t k v

/-- Association-list removal: `dict.__delitem__` on a present key. -/
def adel : List (κ × α) → κ → List (κ × α)
  | [], _ => []
  | (k', v') :: t, k => if k' = k then t else (k', v') :: adel t k

end AList


/-- Python `str.split(sep)` on a character separator, over the character
list of the string: always returns at least one (possibly empty) part. -/
def pySplit (sep : Char) : List Char → List (List Char)
  | [] => [[]]
  | c :: rest =>
    if c = sep then [] :: pySplit sep rest
    else
      match pySplit sep rest with
      | [] => [[c]]
      | h :: t => (c :: h) :: t

/-- Occurrences of a character in a string (the number of separators an
address contains). -/
def countChar (s : String) (c : Char) : Nat :=
  s.data.count c

/-- Does the character list `s` start with the character list `p`? -/
def leadsWith : List Char → List Char → Bool
  | _, [] => true
  | [], _ :: _ => false
  | c :: s, d :: p => c == d && leadsWith s p

/-- The normalized string form of `pathlib.PurePosixPath(s)`: repeated
slashes and single-dot components are dropped, trailing slashes are
dropped, the empty string becomes a dot, and a leading double slash (but
not triple slash) is kept as a distinguished root. -/
def pyNorm (s : String) : String :=
  let parts : List String := (pySplit '/' s.data).map (fun l => String.mk l)
  let comps := parts.filter (fun c => ¬ (c = "" ∨ c = "."))
  let root : String :=
    if leadsWith s.data ['/', '/'] && ! leadsWith s.data ['/', '/', '/'] then "//"
    else if leadsWith s.data ['/'] then "/"
    else ""
  if root = "" ∧ comps = [] then "." else root ++ String.intercalate "/" comps

/-- `Connection.separate_path`: splits an address on the `:` separator.
Two components give a `(PurePosixPath document, tag)` pair, one component a
`(PurePosixPath document, no tag)` pair, anything else raises
`ValueError(f"Invalid path ...")`. -/
def separate_path (p : String) : Except PyError (NodeKey × Option String) :=
  match pySplit ':' p.data with
  | [a, b] => .ok (.path (pyNorm (String.mk a)), some (String.mk b))
  | [a] => .ok (.path (pyNorm (String.mk a)), none)
  | _ => .error (.valueError ("Invalid path " ++ p))

/-- A `Connection` object: directed endpoints stored as the raw address
strings handed to `create_connection`, plus its own metadata dict.  The
`workspace` back-reference of the Python object is dropped (operations take
the workspace state explicitly). -/
structure Connection where
  source : String
  target : String
  metadata : List (String × JVal)
deriving Repr

/-- A `Document` object: its `path` field holds exactly what was passed to
`Document.__init__` (a `str` from the public API, a `PurePosixPath` when it
was created through `create_connection`), plus its metadata dict
(`Document.ProtectedMetadata`, which behaves as a plain dict for reads and
writes). -/
structure Document where
  path : NodeKey
  metadata : List (String × JVal)
deriving Repr

/-- The workspace state: the backing filesystem (file path to content), the
graph-level metadata of `nx.Graph`, the node dict (key to the `document`
node attribute), the edge set (endpoint pair to the `connlist` edge
attribute; at most one entry per unordered pair, as in `nx.Graph`), and the
decoded content of the persistence file `workspace.json` (`none` when the
file has never been written). -/
structure WS where
  fsFiles : List (String × String)
  graph_meta : List (String × JVal)
  nodes : List (NodeKey × Document)
  edges : List (NodeKey × NodeKey × List Connection)
  saveData : Option JVal
deriving Repr

/-- `Workspace(fs)` with the default empty metadata. -/
def emptyWS : WS :=
  { fsFiles := [], graph_meta := [], nodes := [], edges := [], saveData := none }

/-- `nx.Graph.has_edge` / edge lookup: the endpoint pair is unordered. -/
def findEdge : List (NodeKey × NodeKey × List Connection) → NodeKey → NodeKey →
    Option (List Connection)
  | [], _, _ => none
  | (a, b, cl) :: rest, u, v =>
    if (a = u ∧ b = v) ∨ (a = v ∧ b = u) then some cl else findEdge rest u v

/-- Replace the connlist of the (unique) edge between `u` and `v`. -/
def setConnlist : List (NodeKey × NodeKey × List Connection) → NodeKey → NodeKey →
    List Connection → List (NodeKey × NodeKey × List Connection)
  | [], _, _, _ => []
  | (a, b, cl) :: rest, u, v, cl' =>
    if (a = u ∧ b = v) ∨ (a = v ∧ b = u) then (a, b, cl') :: rest
    else (a, b, cl) :: setConnlist rest u v cl'

/-- `nx.Graph.remove_edge` between `u` and `v`. -/
def removeEdge : List (NodeKey × NodeKey × List Connection) → NodeKey → NodeKey →
    List (NodeKey × NodeKey × List Connection)
  | [], _, _ => []
  | (a, b, cl) :: rest, u, v =>
    if (a = u ∧ b = v) ∨ (a = v ∧ b = u) then rest
    else (a, b, cl) :: removeEdge rest u v

/-- `nx.Graph.remove_node`: drops the node and every incident edge. -/
def removeNode (w : WS) (k : NodeKey) : WS :=
  { w with
    nodes := w.nodes.filter (fun nd => ¬ nd.1 = k)
    edges := w.edges.filter (fun e => ¬ (e.1 = k ∨ e.2.1 = k)) }

/-- `Workspace.update_metadata`: merge into the graph-level metadata
(`self.graph.graph[key] = value` per pair; empty input is a no-op). -/
def update_metadata (w : WS) (md : List (String × JVal)) : WS :=
  { w with graph_meta := md.foldl (fun g kv => aset g kv.1 kv.2) w.graph_meta }

/-- `Document.update_metadata`: merge key/value pairs into the document's
metadata dict. -/
def doc_update_metadata (d : Document) (md : List (String × JVal)) : Document :=
  { d with metadata := md.foldl (fun m kv => aset m kv.1 kv.2) d.metadata }

/-- `Connection.update_metadata`: merge key/value pairs into the
connection's metadata dict. -/
def conn_update_metadata (c : Connection) (md : List (String × JVal)) : Connection :=
  { c with metadata := md.foldl (fun m kv => aset m kv.1 kv.2) c.metadata }

/-- `Workspace.create_document` on an arbitrary key (the public API passes
a `str`; `create_connection` passes a `PurePosixPath`).  Creates the
backing file when absent (directory creation is abstracted away), builds a
fresh `Document` with empty metadata and installs it as the node payload —
`add_node` on an existing node overwrites the `document` attribute in
place. -/
def create_document_key (w : WS) (dk : NodeKey) : Document × WS :=
  let w :=
    if ahas w.fsFiles dk.toStr then w
    else { w with fsFiles := w.fsFiles ++ [(dk.toStr, "")] }
  let d : Document := { path := dk, metadata := [] }
  (d, { w with nodes := aset w.nodes dk d })

/-- `Workspace.create_document` as called by users, with a `str` path. -/
def create_document (w : WS) (p : String) : Document × WS :=
  create_document_key w (.str p)

/-- `Workspace.get_or_create_document`. -/
def get_or_create_document (w : WS) (dk : NodeKey) : Document × WS :=
  match aget w.nodes dk with
  | some d => (d, w)
  | none => create_document_key w dk

/-- `Workspace.get_document` on an arbitrary key. -/
def get_document_key (w : WS) (dk : NodeKey) : Except PyError Document :=
  match aget w.nodes dk with
  | some d => .ok d
  | none => .error (.valueError ("Document " ++ dk.toStr ++ " not found in workspace"))

/-- `Workspace.get_document` as called by users, with a `str` path. -/
def get_document (w : WS) (p : String) : Except PyError Document :=
  get_document_key w (.str p)

/-- `Workspace.update_document`: `get_document`, then merge metadata into
the (graph-aliased) document. -/
def update_document (w : WS) (p : String) (md : List (String × JVal)) :
    Except PyError WS :=
  match get_document w p with
  | .error e => .error e
  | .ok d => .ok { w with nodes := aset w.nodes (.str p) (doc_update_metadata d md) }

/-- Step 3 of `create_connection`: if the endpoint has a (truthy) tag that
is not yet a metadata key of its document, insert it with the empty string
value.  Python's `if source_tag` is false for the empty string. -/
def ensureTag (w : WS) (dk : NodeKey) : Option String → WS
  | none => w
  | some t =>
    if t = "" then w
    else
      match aget w.nodes dk with
      | some d =>
        if ahas d.metadata t then w
        else { w with nodes := aset w.nodes dk (doc_update_metadata d [(t, .jstr "")]) }
      | none => w

/-- `Workspace.create_connection`: build the `Connection` object, parse
both addresses, `get_or_create` both documents, ensure both tags exist,
then append to an existing edge's connlist or create the edge with a
singleton connlist. -/
def create_connection (w : WS) (s t : String) : Except PyError (Connection × WS) :=
  let conn : Connection := { source := s, target := t, metadata := [] }
  match separate_path s with
  | .error e => .error e
  | .ok sp =>
    match separate_path t with
    | .error e => .error e
    | .ok tp =>
      let w := (get_or_create_document w sp.1).2
      let w := (get_or_create_document w tp.1).2
      let w := ensureTag w sp.1 sp.2
      let w := ensureTag w tp.1 tp.2
      let w :=
        match findEdge w.edges sp.1 tp.1 with
        | some cl => { w with edges := setConnlist w.edges sp.1 tp.1 (cl ++ [conn]) }
        | none => { w with edges := w.edges ++ [(sp.1, tp.1, [conn])] }
      .ok (conn, w)

/-- `Connection.__eq__` compared against a `(source, target)` pair, as in
`conn == (source, target)` inside `get_connection`: the first
`isinstance(other, Connection)` test is false for a tuple, and the
`isinstance(other, tuple[str, str])` test then raises `TypeError` at
runtime — `isinstance` rejects parameterized generics — before any field is
compared. -/
def connEqTuple (_c : Connection) (_s _t : String) : Except PyError Bool :=
  .error (.typeError "isinstance() argument 2 cannot be a parameterized generic")

/-- `Connection.__eq__` between two `Connection` objects: source and target
strings only, metadata ignored. -/
def connEqConn (a b : Connection) : Bool :=
  a.source == b.source && a.target == b.target

/-- The `for conn in connection_list` scan of `get_connection`: returns the
first element comparing equal to the `(source, target)` tuple, raises
`ValueError` when the list is exhausted — and propagates the `TypeError`
that `conn == (source, target)` raises. -/
def scanConnlist (cl : List Connection) (s t : String) : Except PyError Connection :=
  match cl with
  | [] => .error (.valueError
      ("Connection " ++ s ++ " -> " ++ t ++ " not found in connection list"))
  | c :: rest =>
    match connEqTuple c s t with
    | .error e => .error e
    | .ok true => .ok c
    | .ok false => scanConnlist rest s t

/-- `Workspace.get_connection`: parse both addresses, look up the edge
between the two document components (`ValueError` when absent), then scan
the connlist. -/
def get_connection (w : WS) (s t : String) : Except PyError Connection :=
  match separate_path s with
  | .error e => .error e
  | .ok sp =>
    match separate_path t with
    | .error e => .error e
    | .ok tp =>
      match findEdge w.edges sp.1 tp.1 with
      | some cl => scanConnlist cl s t
      | none => .error (.valueError
          ("Connection " ++ s ++ " -> " ++ t ++ " not found in workspace"))

/-- `Workspace.get_connections_with_source`: parses the address and then
evaluates `source_doc_path in self.graph_nodes`.  `Workspace` has no
attribute `graph_nodes` (the node set lives at `self.graph.nodes`), so the
access raises `AttributeError` on every call. -/
def get_connections_with_source (_w : WS) (source : String) :
    Except PyError (List Connection) :=
  match separate_path source with
  | .error e => .error e
  | .ok _ => .error (.attributeError "Workspace object has no attribute graph_nodes")

/-- `Workspace.get_connections_with_target`: same undefined
`self.graph_nodes` access as `get_connections_with_source`. -/
def get_connections_with_target (_w : WS) (target : String) :
    Except PyError (List Connection) :=
  match separate_path target with
  | .error e => .error e
  | .ok _ => .error (.attributeError "Workspace object has no attribute graph_nodes")

/-- The first matched element of `list.remove(conn)`, using
`Connection.__eq__` between `Connection` objects.  The element is
guaranteed present by the preceding `get_connection` in the only caller, so
the missing-element `ValueError` of `list.remove` is unreachable and the
empty case returns the list unchanged. -/
def removeFirstConn : List Connection → Connection → List Connection
  | [], _ => []
  | c :: rest, x => if connEqConn c x then rest else c :: removeFirstConn rest x

/-- `Workspace.delete_connection`: parse, `get_connection` (whose failure
propagates before anything is mutated), remove the matched connection from
the connlist, and drop the edge entirely when the connlist becomes
empty. -/
def delete_connection (w : WS) (s t : String) : Except PyError (Connection × WS) :=
  match separate_path s with
  | .error e => .error e
  | .ok sp =>
    match separate_path t with
    | .error e => .error e
    | .ok tp =>
      match get_connection w s t with
      | .error e => .error e
      | .ok conn =>
        let cl := (findEdge w.edges sp.1 tp.1).getD []
        let cl := removeFirstConn cl conn
        let w :=
          if cl.isEmpty then { w with edges := removeEdge w.edges sp.1 tp.1 }
          else { w with edges := setConnlist w.edges sp.1 tp.1 cl }
        .ok (conn, w)

/-- `Workspace.update_connection`: `get_connection`, then merge metadata
into the matched connection (aliased into the edge's connlist, so the merge
is written back into the first `__eq__`-matching list entry). -/
def update_connection (w : WS) (s t : String) (md : List (String × JVal)) :
    Except PyError WS :=
  match separate_path s with
  | .error e => .error e
  | .ok sp =>
    match separate_path t with
    | .error e => .error e
    | .ok tp =>
      match get_connection w s t with
      | .error e => .error e
      | .ok conn =>
        let cl := (findEdge w.edges sp.1 tp.1).getD []
        let cl := cl.map (fun c => if connEqConn c conn then conn_update_metadata c md else c)
        .ok { w with edges := setConnlist w.edges sp.1 tp.1 cl }

/-- `Workspace.delete_document(doc_path, in_filesystem)`: when requested
and the backing file exists, remove it (pruning of now-empty directories
acts only on directories, which are abstracted away); when the node exists,
remove it together with all incident edges.  Absent document: both guards
are false and the call is a no-op. -/
def delete_document (w : WS) (p : String) (in_filesystem : Bool) : Except PyError WS :=
  let w :=
    if in_filesystem && ahas w.fsFiles p then { w with fsFiles := adel w.fsFiles p }
    else w
  let w := if ahas w.nodes (.str p) then removeNode w (.str p) else w
  .ok w

/-- `Document.read_content`: the backing file's content, or the
`fs.errors.ResourceNotFound` the filesystem adapter raises when the file is
absent. -/
def read_content (w : WS) (d : Document) : Except PyError String :=
  match aget w.fsFiles d.path.toStr with
  | some c => .ok c
  | none => .error (.resourceNotFound ("resource " ++ d.path.toStr ++ " not found"))

/-- `Document.ProtectedMetadata.__delitem__` for the document stored at
node `dk`: `_delete_connections` first queries
`get_connections_with_source` and `get_connections_with_target` for
`"path:key"` and deletes every returned connection, then
`dict.__delitem__` removes the key (raising `KeyError` when absent).  An
exception from any step propagates before the later steps run. -/
def metadata_delitem (w : WS) (dk : NodeKey) (key : String) : Except PyError WS :=
  let addr := dk.toStr ++ ":" ++ key
  match get_connections_with_source w addr with
  | .error e => .error e
  | .ok srcList =>
    match get_connections_with_target w addr with
    | .error e => .error e
    | .ok tgtList =>
      let step := fun (acc : Except PyError WS) (c : Connection) =>
        match acc with
        | .error e => .error e
        | .ok w' =>
          match delete_connection w' c.source c.target with
          | .error e => .error e
          | .ok r => .ok r.2
      match (srcList ++ tgtList).foldl step (.ok w) with
      | .error e => .error e
      | .ok w' =>
        match aget w'.nodes dk with
        | some d =>
          if ahas d.metadata key then
            .ok { w' with nodes := aset w'.nodes dk { d with metadata := adel d.metadata key } }
          else .error (.keyError key)
        | none => .error (.keyError key)

/-- The persistence file name fixed in `Workspace.__init__`. -/
def saveFileName : String := "workspace.json"

/-- JSON serialization of a graph node id by `_WorkspaceJSONEncoder`: a
`str` id is a JSON string; a `PurePosixPath` id reaches
`json.JSONEncoder.default`, which raises `TypeError` for types it does not
know. -/
def encodeKey (k : NodeKey) : Except PyError JVal :=
  match k with
  | .str s => .ok (.jstr s)
  | .path _ => .error (.typeError "Object of type PosixPath is not JSON serializable")

/-- `_WorkspaceJSONEncoder.default` on a `Document`: a tagged record of
path and metadata.  The `path` attribute is itself serialized, so a
`PurePosixPath` path raises `TypeError` here as well. -/
def encodeDoc (d : Document) : Except PyError JVal :=
  match encodeKey d.path with
  | .error e => .error e
  | .ok p => .ok (.jobj [("document.path", p), ("document.metadata", .jobj d.metadata)])

/-- `_WorkspaceJSONEncoder.default` on a `Connection`: a tagged record of
source, target and metadata (all JSON-serializable). -/
def encodeConn (c : Connection) : JVal :=
  .jobj [("connection.source", .jstr c.source),
         ("connection.target", .jstr c.target),
         ("connection.metadata", .jobj c.metadata)]

/-- One node of `nx.node_link_data`'s node list as serialized: the node
attribute dict (here always the `document` attribute) followed by the node
id. -/
def encodeNodeEntry (kd : NodeKey × Document) : Except PyError JVal :=
  match encodeDoc kd.2 with
  | .error e => .error e
  | .ok dj =>
    match encodeKey kd.1 with
    | .error e => .error e
    | .ok kj => .ok (JVal.jobj [("document", dj), ("id", kj)])

/-- One link of `nx.node_link_data`'s link list as serialized: the edge
attribute dict (the `connlist`) followed by the endpoint ids. -/
def encodeLinkEntry (e : NodeKey × NodeKey × List Connection) : Except PyError JVal :=
  match encodeKey e.1 with
  | .error er => .error er
  | .ok sj =>
    match encodeKey e.2.1 with
    | .error er => .error er
    | .ok tj => .ok (JVal.jobj
        [("connlist", .jarr (e.2.2.map encodeConn)),
         ("source", sj), ("target", tj)])

/-- `json.dumps(nx.node_link_data(graph), cls=_WorkspaceJSONEncoder)`: the
graph-level metadata, the node list and the link list, serialized in
insertion order.  The first `PurePosixPath` node id encountered aborts the
whole dump with `TypeError`. -/
def save_payload (w : WS) : Except PyError JVal :=
  match w.nodes.mapM encodeNodeEntry with
  | .error e => .error e
  | .ok nodeList =>
    match w.edges.mapM encodeLinkEntry with
    | .error e => .error e
    | .ok linkList => .ok (.jobj
        [("directed", .jbool false),
         ("multigraph", .jbool false),
         ("graph", .jobj w.graph_meta),
         ("nodes", .jarr nodeList),
         ("links", .jarr linkList)])

/-- `Workspace.save`: touch the save file when absent, open it for writing
(truncating it), then compute and write the encoded graph.  A `TypeError`
raised while encoding propagates and the truncated file state is lost in
this exception-as-`Except` model. -/
def save (w : WS) : Except PyError WS :=
  let w := { w with fsFiles := aset w.fsFiles saveFileName "" }
  match save_payload w with
  | .error e => .error e
  | .ok payload => .ok { w with saveData := some payload }

/-- A Python value during `json.loads` with `json_object_hook`: a plain
JSON value, a reconstructed `Document` or `Connection`, or a composite that
contains reconstructed objects below. -/
inductive PyObj where
  | val (j : JVal)
  | pdoc (d : Document)
  | pconn (c : Connection)
  | parr (xs : List PyObj)
  | pobj (kvs : List (String × PyObj))
deriving Repr

mutual

/-- Convert a hook-processed value back to plain JSON, when no
reconstructed `Document`/`Connection` occurs inside it. -/
def toPlain : PyObj → Option JVal
  | .val j => some j
  | .pdoc _ => none
  | .pconn _ => none
  | .parr xs =>
    match toPlainList xs with
    | some l => some (.jarr l)
    | none => none
  | .pobj kvs =>
    match toPlainKVs kvs with
    | some l => some (.jobj l)
    | none => none

def toPlainList : List PyObj → Option (List JVal)
  | [] => some []
  | x :: xs =>
    match toPlain x, toPlainList xs with
    | some j, some l => some (j :: l)
    | _, _ => none

def toPlainKVs : List (String × PyObj) → Option (List (String × JVal))
  | [] => some []
  | (k, x) :: xs =>
    match toPlain x, toPlainKVs xs with
    | some j, some l => some ((k, j) :: l)
    | _, _ => none

end

/-- `json_object_hook` applied to one decoded JSON object: a dict carrying
the `Document` tag shape is rebuilt as a live `Document` with the metadata
replayed through `update_metadata`; a dict carrying the `Connection` tag
shape is rebuilt as a live `Connection` likewise; everything else is left
as a dict.  (The guards on the shapes of the tagged fields mirror the only
shapes `_WorkspaceJSONEncoder` emits.) -/
def mkHooked (kvs : List (String × PyObj)) : PyObj :=
  match aget kvs "document.path", aget kvs "document.metadata" with
  | some (.val (.jstr p)), some (.pobj mkvs) =>
    match toPlainKVs mkvs with
    | some md => .pdoc (doc_update_metadata { path := .str p, metadata := [] } md)
    | none => .pobj kvs
  | _, _ =>
    match aget kvs "connection.source", aget kvs "connection.target",
        aget kvs "connection.metadata" with
    | some (.val (.jstr s)), some (.val (.jstr t)), some (.pobj mkvs) =>
      match toPlainKVs mkvs with
      | some md => .pconn (conn_update_metadata { source := s, target := t, metadata := [] } md)
      | none => .pobj kvs
    | _, _, _ => .pobj kvs

mutual

/-- `json.loads` with `object_hook=json_object_hook`: the hook runs
bottom-up on every decoded JSON object. -/
def decodeHook : JVal → PyObj
  | .jnull => .val .jnull
  | .jbool b => .val (.jbool b)
  | .jnum n => .val (.jnum n)
  | .jstr s => .val (.jstr s)
  | .jarr xs => .parr (decodeHookList xs)
  | .jobj kvs => mkHooked (decodeHookKVs kvs)

def decodeHookList : List JVal → List PyObj
  | [] => []
  | x :: xs => decodeHook x :: decodeHookList xs

def decodeHookKVs : List (String × JVal) → List (String × PyObj)
  | [] => []
  | (k, v) :: xs => (k, decodeHook v) :: decodeHookKVs xs

end

/-- One entry of the decoded node list: a dict with a string `id` and a
reconstructed `Document` payload.  Other shapes are rejected (the
malformed-data failure modes of `nx.node_link_graph` are collapsed into a
single error). -/
def decodeNode : PyObj → Except PyError (NodeKey × Document)
  | .pobj kvs =>
    match aget kvs "id", aget kvs "document" with
    | some (.val (.jstr i)), some (.pdoc d) => .ok (.str i, d)
    | _, _ => .error (.typeError "malformed node entry")
  | _ => .error (.typeError "malformed node entry")

/-- A hook-processed value that must be a reconstructed `Connection` (one
connlist entry). -/
def connOnly : PyObj → Option Connection
  | .pconn c => some c
  | _ => none

/-- One entry of the decoded link list: string endpoint ids and a connlist
of reconstructed `Connection`s. -/
def decodeLink : PyObj → Except PyError (NodeKey × NodeKey × List Connection)
  | .pobj kvs =>
    match aget kvs "source", aget kvs "target", aget kvs "connlist" with
    | some (.val (.jstr u)), some (.val (.jstr v)), some (.parr xs) =>
      match xs.mapM connOnly with
      | some cl => .ok (.str u, .str v, cl)
      | none => .error (.typeError "malformed link entry")
    | _, _, _ => .error (.typeError "malformed link entry")
  | _ => .error (.typeError "malformed link entry")

/-- `nx.node_link_graph` on the hook-processed data: graph-level metadata
from `graph`, the node dict from `nodes`, the edge set from `links`. -/
def node_link_graph (p : PyObj) : Except PyError
    (List (String × JVal) × List (NodeKey × Document) ×
     List (NodeKey × NodeKey × List Connection)) :=
  match p with
  | .pobj kvs =>
    match aget kvs "graph", aget kvs "nodes", aget kvs "links" with
    | some (.pobj g), some (.parr ns), some (.parr ls) =>
      match toPlainKVs g with
      | none => .error (.typeError "malformed graph attributes")
      | some gm =>
        match ns.mapM decodeNode with
        | .error e => .error e
        | .ok nodes =>
          match ls.mapM decodeLink with
          | .error e => .error e
          | .ok links => .ok (gm, nodes, links)
    | _, _, _ => .error (.typeError "malformed node-link data")
  | _ => .error (.typeError "malformed node-link data")

/-- `Workspace.load`: open and parse the persistence file (absence raises
the adapter's not-found error), run the object hook, and replace
`self.graph` wholesale with the rebuilt graph.  The filesystem is only
read. -/
def load (w : WS) : Except PyError WS :=
  match w.saveData with
  | none => .error (.resourceNotFound ("resource " ++ saveFileName ++ " not found"))
  | some j =>
    match node_link_graph (decodeHook j) with
    | .error e => .error e
    | .ok gne => .ok { w with graph_meta := gne.1, nodes := gne.2.1, edges := gne.2.2 }

/-- Does the workspace hold a live connection whose source and target
strings are exactly `s` and `t`?  (The matching criterion of
`get_connection` and `delete_connection`, evaluated over every edge.) -/
def hasConnMatch (w : WS) (s t : String) : Bool :=
  w.edges.any (fun e => e.2.2.any (fun c => c.source == s && c.target == t))

/-! ### Concrete scenario states

Reachable workspace states used by the claim theorems below.  Each one is
defined by running the modelled operations themselves; the accompanying
theorems restate the operation results, so the `emptyWS` fallbacks of the
`match`es are provably not taken. -/

/-- The store after `create_document("d1")` on a fresh workspace. -/
def wD1 : WS := (create_document emptyWS "d1").2

/-- The store `wD1` after `update_document("d1", dict(t=""))`: document
`d1` carries the metadata key `t`, and no connection exists. -/
def wD1T : WS :=
  match update_document wD1 "d1" [("t", .jstr "")] with
  | .ok w => w
  | .error _ => emptyWS

/-- The store after `create_document("d1")` and `create_document("d2")`. -/
def wD1D2 : WS := (create_document wD1 "d2").2

/-- The store `wD1D2` after `create_connection("d1", "d2")` — the
round-trip scenario of the spec just before `save()`. -/
def wC1 : WS :=
  match create_connection wD1D2 "d1" "d2" with
  | .ok r => r.2
  | .error _ => emptyWS

/-- The store after `create_connection("a", "b")` on a fresh workspace:
one edge with a singleton connlist. -/
def wAB : WS :=
  match create_connection emptyWS "a" "b" with
  | .ok r => r.2
  | .error _ => emptyWS

/-- The store `wAB` after a second `create_connection("a", "b")`: the edge
carries two connections with identical source and target. -/
def wAB2 : WS :=
  match create_connection wAB "a" "b" with
  | .ok r => r.2
  | .error _ => emptyWS

/-- A store whose graph already holds node `d1` (with some metadata) and
whose filesystem holds the backing file `d1` (with some content). -/
def wD1Full : WS :=
  { fsFiles := [("d1", "hello")]
    graph_meta := []
    nodes := [(.str "d1", { path := .str "d1", metadata := [("t", .jstr "v")] })]
    edges := []
    saveData := none }

/-- A persisted graph (in the shape `save` writes): one document node
`ghost.md` with empty metadata and no links. -/
def ghostData : JVal :=
  .jobj
    [("directed", .jbool false),
     ("multigraph", .jbool false),
     ("graph", .jobj []),
     ("nodes", .jarr
       [.jobj
         [("document", .jobj
           [("document.path", .jstr "ghost.md"),
            ("document.metadata", .jobj [])]),
          ("id", .jstr "ghost.md")]]),
     ("links", .jarr [])]

/-- A fresh store over a directory that holds only the persistence file:
the backing file of the persisted document `ghost.md` is absent. -/
def wGhost : WS :=
  { fsFiles := [(saveFileName, "")]
    graph_meta := []
    nodes := []
    edges := []
    saveData := some ghostData }

/-- The store `wGhost` after `load()`. -/
def wGhostLoaded : WS :=
  match load wGhost with
  | .ok w => w
  | .error _ => emptyWS

/-! ### Generic lemmas about the dict and split models -/

section AListLemmas

variable {κ α : Type} [DecidableEq κ]

theorem aget_aset_self (l : List (κ × α)) (k : κ) (v : α) :
    aget (aset l k v) k = some v := by
  induction l with
  | nil => simp [aget, aset]
  | cons h t ih =>
    by_cases hk : h.1 = k
    · simp [aset, hk, aget]
    · simp [aset, hk, aget, ih]

theorem aget_aset_other (l : List (κ × α)) (k k' : κ) (v : α) (h : k' ≠ k) :
    aget (aset l k v) k' = aget l k' := by
  have hne : ¬ k = k' := fun hh => h hh.symm
  induction l with
  | nil => simp [aget, aset, hne]
  | cons hd t ih =>
    by_cases hk : hd.1 = k
    · have h2 : ¬ hd.1 = k' := by rw [hk]; exact hne
      simp [aset, hk, aget, hne, h2]
    · simp [aset, hk, aget, ih]

theorem ahas_of_aget_some (l : List (κ × α)) (k : κ) (v : α)
    (h : aget l k = some v) : ahas l k = true := by
  simp [ahas, h]

theorem ahas_of_aget_none (l : List (κ × α)) (k : κ)
    (h : aget l k = none) : ahas l k = false := by
  simp [ahas, h]

end AListLemmas

theorem pySplit_ne_nil (sep : Char) (s : List Char) : pySplit sep s ≠ [] := by
  induction s with
  | nil => simp [pySplit]
  | cons c rest ih =>
    by_cases hc : c = sep
    · simp [pySplit, hc]
    · simp only [pySplit, hc, if_neg hc]
      cases h : pySplit sep rest with
      | nil => simp
      | cons hd tl => simp

theorem pySplit_length (sep : Char) (s : List Char) :
    (pySplit sep s).length = s.count sep + 1 := by
  induction s with
  | nil => simp [pySplit]
  | cons c rest ih =>
    by_cases hc : c = sep
    · simp [pySplit, hc, List.count_cons, ih]
    · simp only [pySplit, if_neg hc]
      cases h : pySplit sep rest with
      | nil => exact absurd h (pySplit_ne_nil sep rest)
      | cons hd tl =>
        rw [h] at ih
        simp only [List.length_cons] at ih ⊢
        simp [List.count_cons, hc, ih]

theorem pySplit_of_count_zero (sep : Char) (s : List Char)
    (h : s.count sep = 0) : pySplit sep s = [s] := by
  induction s with
  | nil => simp [pySplit]
  | cons c rest ih =>
    have hc : ¬ c = sep := by
      intro hh
      simp [List.count_cons, hh] at h
    have hr : rest.count sep = 0 := by
      simp [List.count_cons, hc] at h
      omega
    simp [pySplit, hc, ih hr]

theorem pySplit_append (sep : Char) (a b : List Char)
    (ha : a.count sep = 0) :
    pySplit sep (a ++ sep :: b) = a :: pySplit sep b := by
  induction a with
  | nil => simp [pySplit]
  | cons c rest ih =>
    have hc : ¬ c = sep := by
      intro hh
      simp [List.count_cons, hh] at ha
    have hr : rest.count sep = 0 := by
      simp [List.count_cons, hc] at ha
      omega
    simp [pySplit, hc, ih hr]

/-- The comparison `conn == (source, target)` inside `get_connection`
raises `TypeError` on the first connlist element, so `get_connection`
raises on every input: `ValueError` when parsing fails or no edge exists,
`TypeError` otherwise (a reachable edge always has a nonempty connlist). -/
theorem get_connection_always_raises (w : WS) (s t : String) :
    ∃ e, get_connection w s t = .error e := by
  cases hs : separate_path s with
  | error e =>
    refine ⟨e, ?_⟩
    simp [get_connection, hs]
  | ok sp =>
    cases ht : separate_path t with
    | error e =>
      refine ⟨e, ?_⟩
      simp [get_connection, hs, ht]
    | ok tp =>
      cases hf : findEdge w.edges sp.1 tp.1 with
      | none =>
        refine ⟨.valueError ("Connection " ++ s ++ " -> " ++ t ++ " not found in workspace"), ?_⟩
        simp [get_connection, hs, ht, hf]
      | some cl =>
        cases cl with
        | nil =>
          refine ⟨.valueError ("Connection " ++ s ++ " -> " ++ t ++ " not found in connection list"), ?_⟩
          simp [get_connection, hs, ht, hf, scanConnlist]
        | cons c rest =>
          refine ⟨.typeError "isinstance() argument 2 cannot be a parameterized generic", ?_⟩
          simp [get_connection, hs, ht, hf, scanConnlist, connEqTuple]

/-- C3: claimed — `get_connection` fails with `NotFound` when no edge or
no exact match exists, and otherwise returns the matching connection.
Actual — on the reachable store `wAB`, which holds exactly the connection
`a -> b`, `get_connection("a", "b")` raises `TypeError`: the scan compares
each connection against the `(source, target)` tuple through
`Connection.__eq__`, whose `isinstance(other, tuple[str, str])` test is
rejected at runtime for parameterized generics. -/
theorem get_connection_raises_typeerror_on_match :
    create_connection emptyWS "a" "b" =
      .ok ({ source := "a", target := "b", metadata := [] }, wAB) ∧
    findEdge wAB.edges (.path "a") (.path "b") =
      some [{ source := "a", target := "b", metadata := [] }] ∧
    get_connection wAB "a" "b" =
      .error (.typeError "isinstance() argument 2 cannot be a parameterized generic") :=
  ⟨rfl, rfl, rfl⟩

/-- C4: claimed — `get_connections_with_source`/`get_connections_with_target`
return the connections whose source (resp. target) equals the address, or
fail with `NotFound` when the document node is absent.  Actual — with the
document node `d1` present, both calls raise `AttributeError`: they test
membership in the undefined attribute `self.graph_nodes` instead of the
graph's node set. -/
theorem get_connections_with_raises_attributeerror :
    create_document emptyWS "d1" = ({ path := .str "d1", metadata := [] }, wD1) ∧
    aget wD1.nodes (.str "d1") = some { path := .str "d1", metadata := [] } ∧
    get_connections_with_source wD1 "d1" =
      .error (.attributeError "Workspace object has no attribute graph_nodes") ∧
    get_connections_with_target wD1 "d1" =
      .error (.attributeError "Workspace object has no attribute graph_nodes") :=
  ⟨rfl, rfl, rfl, rfl⟩

/-- C2: claimed — deleting a document metadata key first deletes every
connection addressing `(document, key)`, and degenerates to plain removal
when no connection references the key.  Actual — on the reachable store
`wD1T`, whose document `d1` has the metadata key `t` and which has no
connection at all, `del d1.metadata["t"]` raises `AttributeError` (through
`_delete_connections` and the undefined `graph_nodes` attribute) and the
key is not removed. -/
theorem metadata_delete_raises_attributeerror :
    update_document wD1 "d1" [("t", .jstr "")] = .ok wD1T ∧
    aget wD1T.nodes (.str "d1") =
      some { path := .str "d1", metadata := [("t", .jstr "")] } ∧
    wD1T.edges = [] ∧
    metadata_delitem wD1T (.str "d1") "t" =
      .error (.attributeError "Workspace object has no attribute graph_nodes") :=
  ⟨rfl, rfl, rfl, rfl⟩

/-- C5: claimed — `delete_connection` removes the edge entirely whenever
removing the matched connection empties the connlist.  Actual — on the
reachable store `wAB`, whose single edge holds exactly the one connection
`a -> b`, `delete_connection("a", "b")` raises `TypeError` out of
`get_connection` before any mutation, so the connlist never empties and the
edge never collapses.  (The create direction does hold: `create_connection`
makes a singleton connlist on the first connection and appends
afterwards — see the `wAB`/`wAB2` equations here and in the C9 theorem.) -/
theorem delete_connection_never_collapses_edge :
    create_connection emptyWS "a" "b" =
      .ok ({ source := "a", target := "b", metadata := [] }, wAB) ∧
    findEdge wAB.edges (.path "a") (.path "b") =
      some [{ source := "a", target := "b", metadata := [] }] ∧
    delete_connection wAB "a" "b" =
      .error (.typeError "isinstance() argument 2 cannot be a parameterized generic") :=
  ⟨rfl, rfl, rfl⟩

/-- C9: claimed — Connection equality ignores metadata (true between two
`Connection` objects), and `get_connection`, `update_connection` and
`delete_connection` act on the first duplicate in list order.  Actual — a
second `create_connection("a", "b")` duly appends a duplicate to the
connlist, but all three operations raise `TypeError` on touching the first
element (the `isinstance` on `tuple[str, str]`), so none of them returns,
updates or removes the first duplicate. -/
theorem duplicate_connection_ops_raise_typeerror :
    connEqConn { source := "a", target := "b", metadata := [("k", .jstr "1")] }
      { source := "a", target := "b", metadata := [] } = true ∧
    create_connection wAB "a" "b" =
      .ok ({ source := "a", target := "b", metadata := [] }, wAB2) ∧
    findEdge wAB2.edges (.path "a") (.path "b") =
      some [{ source := "a", target := "b", metadata := [] },
            { source := "a", target := "b", metadata := [] }] ∧
    get_connection wAB2 "a" "b" =
      .error (.typeError "isinstance() argument 2 cannot be a parameterized generic") ∧
    update_connection wAB2 "a" "b" [("x", .jstr "y")] =
      .error (.typeError "isinstance() argument 2 cannot be a parameterized generic") ∧
    delete_connection wAB2 "a" "b" =
      .error (.typeError "isinstance() argument 2 cannot be a parameterized generic") :=
  ⟨rfl, rfl, rfl, rfl, rfl, rfl⟩

/-- C1: claimed — `save()` then `load()` reproduces the graph.  Actual —
on the spec's own round-trip scenario (`create_document("d1")`,
`create_document("d2")`, `create_connection("d1", "d2")`), the store ends
up with the `str`-keyed nodes `d1`, `d2` and separate `PurePosixPath`-keyed
nodes (a `Path` never equals a `str`, so `create_connection` bifurcates
every document), and `save()` then raises `TypeError`: a `PurePosixPath`
node id is not JSON serializable.  The round trip never completes. -/
theorem save_raises_typeerror_on_roundtrip_scenario :
    create_connection wD1D2 "d1" "d2" =
      .ok ({ source := "d1", target := "d2", metadata := [] }, wC1) ∧
    aget wC1.nodes (.str "d1") = some { path := .str "d1", metadata := [] } ∧
    aget wC1.nodes (.path "d1") = some { path := .path "d1", metadata := [] } ∧
    save wC1 =
      .error (.typeError "Object of type PosixPath is not JSON serializable") :=
  ⟨rfl, rfl, rfl, rfl⟩

/-- Building a string from its own character list is the identity. -/
theorem mk_data_eq (s : String) : String.mk s.data = s := rfl

/-- String append acts as list append on the character lists. -/
theorem append_data_eq (x y : String) : (x ++ y).data = x.data ++ y.data := rfl

/-- C7: deleting an already-absent document (no graph node, and no backing
file when filesystem removal is requested) completes without raising and
leaves the store unchanged, while deleting a connection with no matching
live connection raises an error (`ValueError` when parsing fails or no
edge exists between the document components, `TypeError` from the connlist
scan otherwise). -/
theorem delete_absent_document_noop_absent_connection_error :
    (∀ (w : WS) (p : String) (infs : Bool),
        aget w.nodes (.str p) = none →
        (infs = true → aget w.fsFiles p = none) →
        delete_document w p infs = .ok w) ∧
    (∀ (w : WS) (s t : String),
        hasConnMatch w s t = false →
        ∃ e, delete_connection w s t = .error e) := by
  constructor
  · intro w p infs hn hf
    have h1 : (infs && ahas w.fsFiles p) = false := by
      cases infs with
      | false => rfl
      | true => simp [ahas_of_aget_none _ _ (hf rfl)]
    simp [delete_document, h1, ahas_of_aget_none _ _ hn]
  · intro w s t _
    cases hs : separate_path s with
    | error e =>
      refine ⟨e, ?_⟩
      simp [delete_connection, hs]
    | ok sp =>
      cases ht : separate_path t with
      | error e =>
        refine ⟨e, ?_⟩
        simp [delete_connection, hs, ht]
      | ok tp =>
        obtain ⟨e, he⟩ := get_connection_always_raises w s t
        refine ⟨e, ?_⟩
        simp [delete_connection, hs, ht, he]

/-- Witness for C7 at concrete inputs: on the empty workspace, deleting
the absent document `x.md` (with filesystem removal requested) is a no-op,
and deleting the absent connection `a -> b` errors. -/
theorem delete_absent_document_noop_absent_connection_error_witness :
    delete_document emptyWS "x.md" true = .ok emptyWS ∧
    ∃ e, delete_connection emptyWS "a" "b" = .error e := by
  constructor
  · exact delete_absent_document_noop_absent_connection_error.1 emptyWS "x.md" true rfl
      (fun _ => rfl)
  · exact delete_absent_document_noop_absent_connection_error.2 emptyWS "a" "b" rfl

/-- C8: `create_document` on a path that is already a node (with its
backing file present) leaves the file content and every other part of the
store unchanged, and replaces the node's payload by a freshly constructed
`Document` with empty metadata, discarding the previous metadata. -/
theorem create_document_existing_node (w : WS) (p : String) (d0 : Document) (c : String)
    (_hn : aget w.nodes (.str p) = some d0) (hf : aget w.fsFiles p = some c) :
    (create_document w p).1 = { path := .str p, metadata := [] } ∧
    (create_document w p).2.fsFiles = w.fsFiles ∧
    (create_document w p).2.edges = w.edges ∧
    (create_document w p).2.graph_meta = w.graph_meta ∧
    (create_document w p).2.saveData = w.saveData ∧
    aget (create_document w p).2.nodes (.str p) =
      some { path := .str p, metadata := [] } ∧
    ∀ k, k ≠ NodeKey.str p → aget (create_document w p).2.nodes k = aget w.nodes k := by
  have hfile : ahas w.fsFiles p = true := ahas_of_aget_some _ _ _ hf
  have hred : create_document w p =
      ({ path := .str p, metadata := [] },
       { w with nodes := aset w.nodes (.str p) { path := .str p, metadata := [] } }) := by
    simp [create_document, create_document_key, NodeKey.toStr, hfile]
  rw [hred]
  exact ⟨rfl, rfl, rfl, rfl, rfl, aget_aset_self _ _ _,
    fun k hk => aget_aset_other _ _ _ _ hk⟩

/-- Witness for C8 at a concrete input: re-creating `d1` on `wD1Full`
keeps the file content, resets the node payload to an empty-metadata
document, and leaves other node lookups unchanged. -/
theorem create_document_existing_node_witness :
    (create_document wD1Full "d1").1 = { path := .str "d1", metadata := [] } ∧
    (create_document wD1Full "d1").2.fsFiles = wD1Full.fsFiles ∧
    aget (create_document wD1Full "d1").2.nodes (.str "d1") =
      some { path := .str "d1", metadata := [] } ∧
    aget (create_document wD1Full "d1").2.nodes (.str "e") =
      aget wD1Full.nodes (.str "e") := by
  have h := create_document_existing_node wD1Full "d1"
      { path := .str "d1", metadata := [("t", .jstr "v")] } "hello" rfl rfl
  exact ⟨h.1, h.2.1, h.2.2.2.2.2.1, h.2.2.2.2.2.2 (.str "e") (by decide)⟩

/-- C10: a successful `load()` leaves the filesystem (files and
persistence file) untouched, and any document it restores whose backing
file is absent is retrievable with `get_document` while its
`read_content()` fails with the adapter's not-found error. -/
theorem load_reads_filesystem_only (w w2 : WS) (h : load w = .ok w2) :
    w2.fsFiles = w.fsFiles ∧ w2.saveData = w.saveData ∧
    ∀ (s : String) (d : Document),
      aget w2.nodes (.str s) = some d →
      aget w2.fsFiles d.path.toStr = none →
      get_document w2 s = .ok d ∧
      read_content w2 d =
        .error (.resourceNotFound ("resource " ++ d.path.toStr ++ " not found")) := by
  cases hd : w.saveData with
  | none => simp [load, hd] at h
  | some j =>
    cases hg : node_link_graph (decodeHook j) with
    | error e => simp [load, hd, hg] at h
    | ok gne =>
      simp only [load, hd, hg] at h
      rw [Except.ok.injEq] at h
      subst h
      refine ⟨rfl, rfl, ?_⟩
      intro s d hn hf
      constructor
      · simp [get_document, get_document_key, hn]
      · simp [read_content, hf]

/-- Witness for C10 at a concrete input: loading `wGhost` (whose persisted
graph holds the document `ghost.md` with no backing file) succeeds, keeps
the filesystem unchanged, restores the document for `get_document`, and
`read_content` on it fails with the not-found error. -/
theorem load_reads_filesystem_only_witness :
    load wGhost = .ok wGhostLoaded ∧
    wGhostLoaded.fsFiles = wGhost.fsFiles ∧
    get_document wGhostLoaded "ghost.md" = .ok { path := .str "ghost.md", metadata := [] } ∧
    read_content wGhostLoaded { path := .str "ghost.md", metadata := [] } =
      .error (.resourceNotFound "resource ghost.md not found") := by
  have h : load wGhost = .ok wGhostLoaded := rfl
  have hall := load_reads_filesystem_only wGhost wGhostLoaded h
  have hpair := hall.2.2 "ghost.md" { path := .str "ghost.md", metadata := [] } rfl rfl
  exact ⟨h, hall.1, hpair.1, hpair.2⟩

/-- C6 counterexample: the parsed document component is not the input
substring — `separate_path` wraps it in `PurePosixPath`, which normalizes
the repeated slash away, so for the zero-separator input `a//b.md` the
document component is the path `a/b.md`, not the whole string `a//b.md`. -/
theorem separate_path_normalizes_counterexample :
    separate_path "a//b.md" = .ok (.path "a/b.md", none) ∧
    NodeKey.path "a/b.md" ≠ NodeKey.path "a//b.md" :=
  ⟨rfl, by decide⟩

/-- C6 (amended): splitting on the `:` separator, zero separators give
`(PurePosixPath of the whole string, no tag)`, exactly one separator gives
`(PurePosixPath of the left part, the right part)`, and more than one
separator fails with the invalid-address `ValueError`; the `PurePosixPath`
constructor normalizes the document component (`pyNorm`). -/
theorem separate_path_cases (s : String) :
    (countChar s ':' = 0 → separate_path s = .ok (.path (pyNorm s), none)) ∧
    (∀ a b : String, s = a ++ ":" ++ b → countChar a ':' = 0 → countChar b ':' = 0 →
        separate_path s = .ok (.path (pyNorm a), some b)) ∧
    (2 ≤ countChar s ':' →
        separate_path s = .error (.valueError ("Invalid path " ++ s))) := by
  refine ⟨?_, ?_, ?_⟩
  · intro h
    have hs : pySplit ':' s.data = [s.data] := pySplit_of_count_zero _ _ h
    simp [separate_path, hs, mk_data_eq]
  · intro a b hab ha hb
    subst hab
    have hd : (a ++ ":" ++ b).data = a.data ++ ':' :: b.data := by
      rw [append_data_eq, append_data_eq]
      simp
    have hs : pySplit ':' (a.data ++ ':' :: b.data) = [a.data, b.data] := by
      rw [pySplit_append _ _ _ ha, pySplit_of_count_zero _ _ hb]
    simp [separate_path, hd, hs, mk_data_eq]
  · intro h
    have h2 : 2 ≤ s.data.count ':' := h
    have hlen : 3 ≤ (pySplit ':' s.data).length := by
      rw [pySplit_length]
      omega
    rcases hsp : pySplit ':' s.data with _ | ⟨x, _ | ⟨y, _ | ⟨z, r⟩⟩⟩
    · rw [hsp] at hlen
      simp at hlen
    · rw [hsp] at hlen
      simp at hlen
    · rw [hsp] at hlen
      simp at hlen
    · simp [separate_path, hsp]

/-- Witness for the amended C6 at concrete inputs: the three spec
examples, one per separator count. -/
theorem separate_path_cases_witness :
    separate_path "a/b.md" = .ok (.path (pyNorm "a/b.md"), none) ∧
    separate_path "a/b.md:title" = .ok (.path (pyNorm "a/b.md"), some "title") ∧
    separate_path "a:b:c" = .error (.valueError ("Invalid path " ++ "a:b:c")) := by
  refine ⟨(separate_path_cases "a/b.md").1 (by decide), ?_,
    (separate_path_cases "a:b:c").2.2 (by decide)⟩
  exact (separate_path_cases "a/b.md:title").2.1 "a/b.md" "title" (by decide)
    (by decide) (by decide)

end Sarjan
